import Mathlib

/-!
Shallow embedding of `src/server/pollable.rs`: the pollable channel
(self-pipe trick over a unix-domain socketpair), its sender/receiver
handles, the `AsPollFd` readiness-record layer, the `ReadAndWrite`
capability, and the blocking `poll_for_read` wrapper.

Modelling conventions:
* The crossbeam unbounded channel together with the wake pipe is the
  `ChannelState`: the FIFO queue contents, the count of unread bytes
  buffered in the pipe, the number of live sender handles, and whether
  the receiver is still alive.
* OS calls are nondeterministic; their outcomes are passed in as
  explicit oracle arguments: the result of the one-byte `write` in
  `send` (`Except Unit Nat`, the `Nat` being the byte count the OS
  reports on success), the success of the one-byte `read` drain in
  `try_recv` (`Bool`), the result of `FileDescriptor::try_clone` in
  `Clone for PollableSender` (`Except Unit Int`), the result of
  `UnixStream::pair` in `pollable_channel` (`Except Unit (Int × Int)`),
  and, for the `poll` syscall, a timeout-indexed update of the
  `revents` fields plus a timeout-indexed return code.
-/

/-- Error cases of `PollableSender::send` (a `failure::Fallible` in the
source): the pipe write failed with an I/O error, or the crossbeam send
failed because the receiver was dropped. -/
inductive SendError where
  | ioFailure
  | disconnected
deriving DecidableEq

/-- Mirror of `crossbeam_channel::TryRecvError`: `empty` is the
would-block signal, `disconnected` means all senders are gone and the
queue is empty. -/
inductive TryRecvError where
  | empty
  | disconnected
deriving DecidableEq

/-- State of one pollable channel: the crossbeam FIFO queue contents,
the number of unread bytes buffered in the wake pipe, the number of
live `PollableSender` handles, and whether the `PollableReceiver` is
still alive. -/
structure ChannelState (T : Type) where
  queue : List T
  pipeBytes : Nat
  senders : Nat
  receiverAlive : Bool
deriving DecidableEq

/-- Embedding of `PollableSender::send`:
`self.write.borrow_mut().write(b"x")?` first (on error the whole call
fails with an I/O error and nothing else happens; on success the OS
reports `n` bytes transferred into the pipe), then
`self.sender.send(item)` (which fails with a disconnected error iff the
receiver has been dropped, leaving the already-written pipe bytes in
place). -/
def send {T : Type} (st : ChannelState T) (item : T) (writeResult : Except Unit Nat) :
    ChannelState T × Except SendError Unit :=
  match writeResult with
  | Except.error _ => (st, Except.error SendError.ioFailure)
  | Except.ok n =>
      let st1 : ChannelState T := { st with pipeBytes := st.pipeBytes + n }
      if st.receiverAlive then
        ({ st1 with queue := st1.queue ++ [item] }, Except.ok ())
      else
        (st1, Except.error SendError.disconnected)

/-- Embedding of `PollableReceiver::try_recv`:
`self.receiver.try_recv()?` pops the queue head (erroring with `empty`
when the queue is empty and a sender is live, with `disconnected` when
the queue is empty and every sender is gone, in which case nothing else
happens), then on success `self.read.borrow_mut().read(&mut byte).ok()`
best-effort drains one byte from the pipe, ignoring the read's result;
`readOk` is the oracle for whether that read succeeds. -/
def try_recv {T : Type} (st : ChannelState T) (readOk : Bool) :
    ChannelState T × Except TryRecvError T :=
  match st.queue with
  | [] =>
      if st.senders = 0 then (st, Except.error TryRecvError.disconnected)
      else (st, Except.error TryRecvError.empty)
  | item :: rest =>
      let drained := if readOk then min 1 st.pipeBytes else 0
      ({ st with queue := rest, pipeBytes := st.pipeBytes - drained }, Except.ok item)

/-- One externally-invoked operation on a pollable channel, together
with the oracle for the OS outcome it involves: a `send` carries the
result of the one-byte pipe write, a `tryRecv` carries whether the
best-effort pipe drain read succeeds. -/
inductive ChanOp (T : Type) where
  | send (item : T) (writeResult : Except Unit Nat)
  | tryRecv (readOk : Bool)

/-- State transition of one operation (discarding the returned value). -/
def applyOp {T : Type} (st : ChannelState T) : ChanOp T → ChannelState T
  | ChanOp.send item wr => (send st item wr).1
  | ChanOp.tryRecv rd => (try_recv st rd).1

/-- Run a sequence of operations left to right. -/
def runOps {T : Type} (st : ChannelState T) (ops : List (ChanOp T)) : ChannelState T :=
  ops.foldl applyOp st

/-- An operation whose write oracle respects the OS contract for a
one-byte write: a reported success transfers at least one byte. -/
def goodOp {T : Type} : ChanOp T → Bool
  | ChanOp.send _ (Except.ok n) => decide (1 ≤ n)
  | _ => true

/-- Run a list of sends on one sender handle, every pipe write
succeeding with the normal one-byte count. -/
def runSends {T : Type} (st : ChannelState T) (xs : List T) : ChannelState T :=
  xs.foldl (fun s x => (send s x (Except.ok 1)).1) st

/-- Run `n` successive `try_recv` calls (pipe drain reads succeeding),
collecting the returned values in call order. -/
def runRecvs {T : Type} : ChannelState T → Nat → ChannelState T × List (Except TryRecvError T)
  | st, 0 => (st, [])
  | st, n + 1 =>
      let p := try_recv st true
      let q := runRecvs p.1 n
      (q.1, p.2 :: q.2)

/-- The `PollableSender<T>` handle: the crossbeam producer handle
(represented by the id of the channel it feeds) plus the exclusively
held write-end descriptor of the wake pipe. -/
structure PollableSender where
  sender : Nat
  writeFd : Int
deriving DecidableEq

/-- The `PollableReceiver<T>` handle: the crossbeam consumer handle
(represented by the id of the channel it drains) plus the exclusively
held read-end descriptor of the wake pipe. -/
structure PollableReceiver where
  receiver : Nat
  readFd : Int
deriving DecidableEq

/-- Result of a Rust `Clone::clone` call, which returns the value
directly: the only non-value outcome is a panic (here from
`.expect(..)`), not an error result. -/
inductive CloneResult (α : Type) where
  | ok (value : α)
  | panicked (msg : String)
deriving DecidableEq

/-- Panic message of `Clone for PollableSender` in the source. -/
def cloneFailMsg : String := "failed to clone PollableSender fd"

/-- Embedding of `Clone for PollableSender`: clones the crossbeam
producer handle (same channel) and duplicates the write-end descriptor
via `FileDescriptor::try_clone`, whose outcome is the `dupResult`
oracle; on duplication failure the `.expect` panics. -/
def PollableSender.clone (s : PollableSender) (dupResult : Except Unit Int) :
    CloneResult PollableSender :=
  match dupResult with
  | Except.ok fd => CloneResult.ok { sender := s.sender, writeFd := fd }
  | Except.error _ => CloneResult.panicked cloneFailMsg

/-- Embedding of `pollable_channel`: builds a fresh crossbeam channel,
then allocates the socketpair via `UnixStream::pair()?` (oracle
`pairResult`, giving the write-end and read-end descriptors); on pair
failure the whole call fails with the I/O error and nothing is
returned; on success it returns the sender handle (wrapping the write
end), the receiver handle (wrapping the read end), and the fresh
channel state (empty queue, empty pipe, one live sender, receiver
alive). The `chanId` stands for the identity of the freshly created
crossbeam channel; both handles carry it. -/
def pollable_channel (T : Type) (chanId : Nat) (pairResult : Except Unit (Int × Int)) :
    Except Unit (PollableSender × PollableReceiver × ChannelState T) :=
  match pairResult with
  | Except.error e => Except.error e
  | Except.ok (w, r) =>
      Except.ok ({ sender := chanId, writeFd := w },
        { receiver := chanId, readFd := r },
        { queue := [], pipeBytes := 0, senders := 1, receiverAlive := true })

/-- Mirror of the C `pollfd` record: descriptor, interest mask, and the
kernel-reported observed mask. -/
structure pollfd where
  fd : Int
  events : Nat
  revents : Nat
deriving DecidableEq

/-- Value of `libc::POLLIN`. -/
def POLLIN : Nat := 1

/-- Value of `libc::POLLERR`. -/
def POLLERR : Nat := 8

/-- Embedding of `impl AsPollFd for RawFileDescriptor`: the record is
`pollfd { fd: *self, events: POLLIN | POLLERR, revents: 0 }`. -/
def RawFileDescriptor.as_poll_fd (fd : Int) : pollfd :=
  { fd := fd, events := POLLIN ||| POLLERR, revents := 0 }

/-- Model of `crate::server::UnixStream` for the descriptor layer: the
raw descriptor it wraps. -/
structure UnixStream where
  fd : Int
deriving DecidableEq

/-- Model of `std::net::TcpStream` for the descriptor layer: the raw
descriptor it wraps. -/
structure TcpStream where
  fd : Int
deriving DecidableEq

/-- Model of `native_tls::TlsStream<TcpStream>` for the descriptor
layer: the underlying TCP stream (returned by `get_ref()`). -/
structure TlsStream where
  stream : TcpStream
deriving DecidableEq

/-- Embedding of `TlsStream::get_ref`: the underlying TCP stream. -/
def TlsStream.get_ref (s : TlsStream) : TcpStream := s.stream

/-- Embedding of `impl AsPollFd for UnixStream`: delegates to the raw
descriptor. -/
def UnixStream.as_poll_fd (s : UnixStream) : pollfd :=
  RawFileDescriptor.as_poll_fd s.fd

/-- Embedding of `impl AsPollFd for native_tls::TlsStream<TcpStream>`:
delegates to the underlying TCP stream's raw descriptor. -/
def TlsStream.as_poll_fd (s : TlsStream) : pollfd :=
  RawFileDescriptor.as_poll_fd s.get_ref.fd

/-- Embedding of `impl AsPollFd for PollableReceiver<T>`: delegates to
the pipe read end's raw descriptor. -/
def PollableReceiver.as_poll_fd (r : PollableReceiver) : pollfd :=
  RawFileDescriptor.as_poll_fd r.readFd

/-- The four watchable transport types of the source file. -/
inductive Transport where
  | unixStream
  | tlsStream
  | rawFileDescriptor
  | pollableReceiver
deriving DecidableEq, BEq

/-- Which transports implement `AsPollFd` (readiness-record
production), read off from the `impl AsPollFd for ..` blocks of the
source file. -/
def watchable : Transport → Bool
  | Transport.unixStream => true
  | Transport.tlsStream => true
  | Transport.rawFileDescriptor => true
  | Transport.pollableReceiver => true

/-- Which transports implement `set_non_blocking`, read off from the
`impl ReadAndWrite for ..` blocks of the source file (`ReadAndWrite` is
the only trait carrying `set_non_blocking`, and it is implemented for
`UnixStream` and for `native_tls::TlsStream<TcpStream>` only). -/
def implements_set_non_blocking : Transport → Bool
  | Transport.unixStream => true
  | Transport.tlsStream => true
  | Transport.rawFileDescriptor => false
  | Transport.pollableReceiver => false

/-- Helper for the `poll` syscall model: replace each record's
`revents` by the kernel's report for its index, leaving `fd` and
`events` untouched (the C `poll` writes only `revents`). -/
def updateRevents (f : Nat → Nat) : Nat → List pollfd → List pollfd
  | _, [] => []
  | i, r :: rs => { r with revents := f i } :: updateRevents f (i + 1) rs

/-- Model of the `poll` (or `WSAPoll`) syscall: given the records and
the timeout, the kernel updates each record's `revents` in place
(oracle `revUpdate`, indexed by timeout and record position) and
returns a status code (oracle `ret`, indexed by timeout). -/
def pollSyscall (revUpdate : Int → Nat → Nat) (ret : Int → Int)
    (pfd : List pollfd) (timeout : Int) : List pollfd × Int :=
  (updateRevents (revUpdate timeout) 0 pfd, ret timeout)

/-- Embedding of `poll_for_read`: calls the syscall with timeout `-1`
inside `unsafe`, discards its return code with a bare `;`, and returns
unit — the only effect visible to the caller is the in-place `revents`
update. -/
def poll_for_read (revUpdate : Int → Nat → Nat) (ret : Int → Int)
    (pfd : List pollfd) : List pollfd :=
  (pollSyscall revUpdate ret pfd (-1)).1

instance {ε α : Type} [DecidableEq ε] [DecidableEq α] : DecidableEq (Except ε α) :=
  fun x y =>
    match x, y with
    | Except.error a, Except.error b =>
        if h : a = b then isTrue (by rw [h]) else isFalse (fun hc => by cases hc; exact h rfl)
    | Except.error _, Except.ok _ => isFalse (fun hc => by cases hc)
    | Except.ok _, Except.error _ => isFalse (fun hc => by cases hc)
    | Except.ok a, Except.ok b =>
        if h : a = b then isTrue (by rw [h]) else isFalse (fun hc => by cases hc; exact h rfl)

theorem applyOp_backlog {T : Type} (st : ChannelState T) (op : ChanOp T)
    (hst : st.queue.length ≤ st.pipeBytes) (hop : goodOp op = true) :
    (applyOp st op).queue.length ≤ (applyOp st op).pipeBytes := by
  cases op with
  | send item wr =>
      cases wr with
      | error e => simpa [applyOp, send] using hst
      | ok n =>
          have hn : 1 ≤ n := by simpa [goodOp] using hop
          by_cases hra : st.receiverAlive = true <;>
            simp [applyOp, send, hra, List.length_append] <;> omega
  | tryRecv rd =>
      cases hq : st.queue with
      | nil =>
          by_cases hs : st.senders = 0 <;> simp [applyOp, try_recv, hq, hs]
      | cons x rest =>
          have hlen : rest.length + 1 ≤ st.pipeBytes := by
            have := hst
            rw [hq] at this
            simpa using this
          have hmin : min 1 st.pipeBytes = 1 := min_eq_left (by omega)
          cases rd <;> simp [applyOp, try_recv, hq, hmin] <;> omega

theorem runOps_backlog {T : Type} (ops : List (ChanOp T)) (st : ChannelState T)
    (hst : st.queue.length ≤ st.pipeBytes) (hops : ∀ op ∈ ops, goodOp op = true) :
    (runOps st ops).queue.length ≤ (runOps st ops).pipeBytes := by
  induction ops generalizing st with
  | nil => simpa [runOps] using hst
  | cons op rest ih =>
      have h1 : (applyOp st op).queue.length ≤ (applyOp st op).pipeBytes :=
        applyOp_backlog st op hst (hops op (by simp))
      have h2 := ih (applyOp st op) h1 (fun o ho => hops o (by simp [ho]))
      simpa [runOps] using h2

/-- C1: Backlog coupling invariant: after any sequence of send and
try_receive operations on a pollable channel (whose successful pipe
writes transfer at least one byte, the OS contract for a one-byte
write), the number of unread bytes buffered in the wake-pipe is at
least the number of items in the queue; in particular the pipe's read
end holds at least one unread byte (is readable) whenever the queue is
non-empty. -/
theorem backlog_coupling {T : Type} (st : ChannelState T) (ops : List (ChanOp T))
    (hst : st.queue.length ≤ st.pipeBytes) (hops : ∀ op ∈ ops, goodOp op = true) :
    (runOps st ops).queue.length ≤ (runOps st ops).pipeBytes ∧
    ((runOps st ops).queue ≠ [] → 1 ≤ (runOps st ops).pipeBytes) := by
  have h := runOps_backlog ops st hst hops
  refine ⟨h, fun hne => ?_⟩
  have h1 : 1 ≤ (runOps st ops).queue.length := by
    cases hc : (runOps st ops).queue with
    | nil => exact absurd hc hne
    | cons a l => simp
  omega

theorem backlog_coupling_witness :
    (runOps (T := Nat) { queue := [], pipeBytes := 0, senders := 1, receiverAlive := true }
        [ChanOp.send 10 (Except.ok 1), ChanOp.send 20 (Except.ok 2),
          ChanOp.tryRecv false]).queue.length ≤
      (runOps (T := Nat) { queue := [], pipeBytes := 0, senders := 1, receiverAlive := true }
        [ChanOp.send 10 (Except.ok 1), ChanOp.send 20 (Except.ok 2),
          ChanOp.tryRecv false]).pipeBytes :=
  (backlog_coupling { queue := [], pipeBytes := 0, senders := 1, receiverAlive := true }
    [ChanOp.send 10 (Except.ok 1), ChanOp.send 20 (Except.ok 2), ChanOp.tryRecv false]
    (by decide) (by decide)).1

/-- C2: Send atomicity on signal failure: send performs the one-byte
pipe write first and the queue push second; if the byte write fails it
returns an I/O error and the state — in particular the queue — is
completely unchanged, while on a successful one-byte write (receiver
alive) the item is appended to the queue and the pipe gains the byte. -/
theorem send_write_failure_atomic {T : Type} (st : ChannelState T) (item : T) :
    send st item (Except.error ()) = (st, Except.error SendError.ioFailure) ∧
    (st.receiverAlive = true →
      send st item (Except.ok 1) =
        ({ st with pipeBytes := st.pipeBytes + 1, queue := st.queue ++ [item] },
          Except.ok ())) := by
  refine ⟨rfl, fun h => ?_⟩
  simp [send, h]

theorem send_write_failure_atomic_witness :
    send (T := Nat) { queue := [], pipeBytes := 0, senders := 1, receiverAlive := true } 5
        (Except.error ()) =
      ({ queue := [], pipeBytes := 0, senders := 1, receiverAlive := true },
        Except.error SendError.ioFailure) ∧
    send (T := Nat) { queue := [], pipeBytes := 0, senders := 1, receiverAlive := true } 5
        (Except.ok 1) =
      ({ queue := [5], pipeBytes := 1, senders := 1, receiverAlive := true }, Except.ok ()) :=
  ⟨(send_write_failure_atomic
      { queue := [], pipeBytes := 0, senders := 1, receiverAlive := true } 5).1,
    (send_write_failure_atomic
      { queue := [], pipeBytes := 0, senders := 1, receiverAlive := true } 5).2 rfl⟩

/-- C3: try_receive contract: with a non-empty queue it pops and
returns the head and best-effort drains one byte from the pipe (exactly
one when the read succeeds and a byte is buffered; none when the read
fails, the failure being swallowed — the call still returns the item);
with an empty queue and a live sender it returns the would-block
(`empty`) signal; with an empty queue and no live senders it returns
the disconnected signal; in both empty cases the state is returned
untouched (no pipe read, no side effects). -/
theorem try_recv_contract {T : Type} (st : ChannelState T) (readOk : Bool) :
    (∀ x rest, st.queue = x :: rest →
      (try_recv st readOk).2 = Except.ok x ∧
      (try_recv st readOk).1.queue = rest ∧
      (readOk = true → 1 ≤ st.pipeBytes →
        (try_recv st readOk).1.pipeBytes = st.pipeBytes - 1) ∧
      (readOk = false → (try_recv st readOk).1.pipeBytes = st.pipeBytes)) ∧
    (st.queue = [] → 0 < st.senders →
      try_recv st readOk = (st, Except.error TryRecvError.empty)) ∧
    (st.queue = [] → st.senders = 0 →
      try_recv st readOk = (st, Except.error TryRecvError.disconnected)) := by
  refine ⟨?_, ?_, ?_⟩
  · intro x rest hq
    refine ⟨by simp [try_recv, hq], by simp [try_recv, hq], ?_, ?_⟩
    · intro hro hp
      have hmin : min 1 st.pipeBytes = 1 := min_eq_left hp
      simp [try_recv, hq, hro, hmin]
    · intro hro
      simp [try_recv, hq, hro]
  · intro hq hs
    have hns : ¬ st.senders = 0 := by omega
    simp [try_recv, hq, hns]
  · intro hq hs
    simp [try_recv, hq, hs]

theorem try_recv_contract_witness :
    (try_recv (T := Nat) { queue := [5], pipeBytes := 2, senders := 1, receiverAlive := true }
        true).2 = Except.ok 5 ∧
    (try_recv (T := Nat) { queue := [5], pipeBytes := 2, senders := 1, receiverAlive := true }
        true).1.pipeBytes = 1 ∧
    try_recv (T := Nat) { queue := [], pipeBytes := 0, senders := 1, receiverAlive := true }
        true =
      ({ queue := [], pipeBytes := 0, senders := 1, receiverAlive := true },
        Except.error TryRecvError.empty) ∧
    try_recv (T := Nat) { queue := [], pipeBytes := 0, senders := 0, receiverAlive := true }
        true =
      ({ queue := [], pipeBytes := 0, senders := 0, receiverAlive := true },
        Except.error TryRecvError.disconnected) :=
  ⟨((try_recv_contract { queue := [5], pipeBytes := 2, senders := 1, receiverAlive := true }
      true).1 5 [] rfl).1,
    ((try_recv_contract { queue := [5], pipeBytes := 2, senders := 1, receiverAlive := true }
      true).1 5 [] rfl).2.2.1 rfl (by decide),
    (try_recv_contract { queue := [], pipeBytes := 0, senders := 1, receiverAlive := true }
      true).2.1 rfl (by decide),
    (try_recv_contract { queue := [], pipeBytes := 0, senders := 0, receiverAlive := true }
      true).2.2 rfl rfl⟩

/-- C10: send checks only that the pipe write returned success, not the
reported byte count: a successful zero-byte (short) write still
enqueues the item and returns success while leaving the pipe byte count
unchanged, and in general a successful write of `n` bytes enqueues the
item and grows the pipe by exactly `n` — so the one-byte-per-item
coupling holds exactly when a successful one-byte write reports count
one. -/
theorem send_short_write {T : Type} (st : ChannelState T) (item : T)
    (h : st.receiverAlive = true) :
    (send st item (Except.ok 0)).2 = Except.ok () ∧
    (send st item (Except.ok 0)).1.queue = st.queue ++ [item] ∧
    (send st item (Except.ok 0)).1.pipeBytes = st.pipeBytes ∧
    (∀ n, (send st item (Except.ok n)).1.queue = st.queue ++ [item] ∧
      (send st item (Except.ok n)).1.pipeBytes = st.pipeBytes + n) := by
  refine ⟨by simp [send, h], by simp [send, h], by simp [send, h],
    fun n => ⟨by simp [send, h], by simp [send, h]⟩⟩

theorem send_short_write_witness :
    (send (T := Nat) { queue := [], pipeBytes := 0, senders := 1, receiverAlive := true } 5
        (Except.ok 0)).2 = Except.ok () ∧
    (send (T := Nat) { queue := [], pipeBytes := 0, senders := 1, receiverAlive := true } 5
        (Except.ok 0)).1.queue = [5] ∧
    (send (T := Nat) { queue := [], pipeBytes := 0, senders := 1, receiverAlive := true } 5
        (Except.ok 0)).1.pipeBytes = 0 :=
  ⟨(send_short_write { queue := [], pipeBytes := 0, senders := 1, receiverAlive := true }
      5 rfl).1,
    (send_short_write { queue := [], pipeBytes := 0, senders := 1, receiverAlive := true }
      5 rfl).2.1,
    (send_short_write { queue := [], pipeBytes := 0, senders := 1, receiverAlive := true }
      5 rfl).2.2.1⟩

theorem runSends_spec {T : Type} (xs : List T) (st : ChannelState T)
    (h : st.receiverAlive = true) :
    (runSends st xs).queue = st.queue ++ xs ∧
    (runSends st xs).senders = st.senders ∧
    (runSends st xs).receiverAlive = true ∧
    (runSends st xs).pipeBytes = st.pipeBytes + xs.length := by
  induction xs generalizing st with
  | nil => simp [runSends, h]
  | cons x rest ih =>
      have hstep : (send st x (Except.ok 1)).1 =
          { st with pipeBytes := st.pipeBytes + 1, queue := st.queue ++ [x] } := by
        simp [send, h]
      have hrun : runSends st (x :: rest) = runSends ((send st x (Except.ok 1)).1) rest := rfl
      obtain ⟨q, s, ra, p⟩ := ih ((send st x (Except.ok 1)).1) (by rw [hstep]; exact h)
      rw [hrun, q, s, ra, p, hstep]
      simp
      omega

theorem runRecvs_exact {T : Type} (xs : List T) (st : ChannelState T) (h : st.queue = xs) :
    (runRecvs st xs.length).2 = xs.map Except.ok ∧
    (runRecvs st xs.length).1.queue = [] ∧
    (runRecvs st xs.length).1.senders = st.senders := by
  induction xs generalizing st with
  | nil => simp [runRecvs, h]
  | cons x rest ih =>
      have hstep : try_recv st true =
          ({ st with
              queue := rest,
              pipeBytes := st.pipeBytes - min 1 st.pipeBytes }, Except.ok x) := by
        simp [try_recv, h]
      obtain ⟨o, q, s⟩ := ih ((try_recv st true).1) (by rw [hstep])
      refine ⟨?_, ?_, ?_⟩
      · show ((try_recv st true).2 :: (runRecvs (try_recv st true).1 rest.length).2) = _
        rw [o, hstep]
        simp
      · show (runRecvs (try_recv st true).1 rest.length).1.queue = []
        exact q
      · show (runRecvs (try_recv st true).1 rest.length).1.senders = st.senders
        rw [s, hstep]

theorem runRecvs_add {T : Type} (n m : Nat) (st : ChannelState T) :
    runRecvs st (n + m) =
      ((runRecvs (runRecvs st n).1 m).1,
        (runRecvs st n).2 ++ (runRecvs (runRecvs st n).1 m).2) := by
  induction n generalizing st with
  | zero => simp [runRecvs]
  | succ k ih =>
      have h1 : k + 1 + m = (k + m) + 1 := by omega
      rw [h1]
      show ((runRecvs (try_recv st true).1 (k + m)).1,
          (try_recv st true).2 :: (runRecvs (try_recv st true).1 (k + m)).2) = _
      rw [ih ((try_recv st true).1)]
      show _ = ((runRecvs (runRecvs (try_recv st true).1 k).1 m).1,
        ((try_recv st true).2 :: (runRecvs (try_recv st true).1 k).2) ++
          (runRecvs (runRecvs (try_recv st true).1 k).1 m).2)
      simp

/-- C4: Per-sender FIFO: from an empty connected channel, after every
send of the list `xs` succeeds (one pipe byte each), `xs.length + 1`
successive try_receive calls return exactly the elements of `xs` in
send order followed by the would-block (`empty`) signal. -/
theorem fifo_order {T : Type} (st : ChannelState T) (xs : List T)
    (hq : st.queue = []) (hra : st.receiverAlive = true) (hs : 0 < st.senders) :
    (runRecvs (runSends st xs) (xs.length + 1)).2 =
      xs.map Except.ok ++ [Except.error TryRecvError.empty] := by
  obtain ⟨q, s, ra, p⟩ := runSends_spec xs st hra
  rw [hq] at q
  simp only [List.nil_append] at q
  obtain ⟨o1, q1, s1⟩ := runRecvs_exact xs (runSends st xs) q
  have hone : runRecvs ((runRecvs (runSends st xs) xs.length).1) 1 =
      ((runRecvs (runSends st xs) xs.length).1, [Except.error TryRecvError.empty]) := by
    have hns : ¬ (runRecvs (runSends st xs) xs.length).1.senders = 0 := by
      rw [s1, s]
      omega
    show ((runRecvs (try_recv (runRecvs (runSends st xs) xs.length).1 true).1 0).1,
        (try_recv (runRecvs (runSends st xs) xs.length).1 true).2 ::
          (runRecvs (try_recv (runRecvs (runSends st xs) xs.length).1 true).1 0).2) = _
    simp [runRecvs, try_recv, q1, hns]
  rw [runRecvs_add xs.length 1 (runSends st xs), o1, hone]

theorem fifo_order_witness :
    (runRecvs (runSends (T := Nat)
        { queue := [], pipeBytes := 0, senders := 1, receiverAlive := true } [1, 2, 3])
      4).2 =
      [Except.ok 1, Except.ok 2, Except.ok 3, Except.error TryRecvError.empty] :=
  fifo_order { queue := [], pipeBytes := 0, senders := 1, receiverAlive := true }
    [1, 2, 3] rfl rfl (by decide)

/-- C5 counterexample: the claim that every watchable transport also
supports the nonblocking toggle fails on the pollable receiver, which
produces a readiness record (`impl AsPollFd for PollableReceiver<T>`)
but has no `set_non_blocking` (no `impl ReadAndWrite`); the universal
statement is therefore false. -/
theorem set_non_blocking_counterexample :
    watchable Transport.pollableReceiver = true ∧
    implements_set_non_blocking Transport.pollableReceiver = false ∧
    ¬ (∀ t : Transport, watchable t = true → implements_set_non_blocking t = true) := by
  refine ⟨rfl, rfl, fun h => ?_⟩
  exact absurd (h Transport.pollableReceiver rfl) (by decide)

/-- C5 (amended): all four watchable transports produce readiness
records, but the nonblocking toggle (`set_non_blocking`, carried by the
`ReadAndWrite` trait) is implemented exactly for the domain-socket
stream and the TLS-over-TCP stream — not for the raw platform
descriptor or the pollable receiver. -/
theorem set_non_blocking_exact (t : Transport) :
    watchable t = true ∧
    implements_set_non_blocking t =
      (t == Transport.unixStream || t == Transport.tlsStream) := by
  cases t <;> exact ⟨rfl, rfl⟩

/-- C6: Channel factory: `pollable_channel` with a failed socketpair
allocation returns exactly that I/O error and nothing else; with a
successful allocation it returns one sender handle holding the write
end, one receiver handle holding the read end (both bound to the same
fresh crossbeam channel), and the fresh channel state: empty queue,
zero pipe bytes, one live sender, receiver alive. -/
theorem pollable_channel_spec (T : Type) (chanId : Nat) :
    pollable_channel T chanId (Except.error ()) = Except.error () ∧
    (∀ w r : Int, pollable_channel T chanId (Except.ok (w, r)) =
      Except.ok ({ sender := chanId, writeFd := w },
        { receiver := chanId, readFd := r },
        { queue := [], pipeBytes := 0, senders := 1, receiverAlive := true })) :=
  ⟨rfl, fun _ _ => rfl⟩

/-- C7: Readiness-record production: every `AsPollFd` implementation
returns the triple of a descriptor, the `POLLIN ||| POLLERR` interest
mask, and observed mask `0`; the raw-descriptor implementation uses the
descriptor itself, the pollable receiver uses the pipe read end's
descriptor, the TLS stream uses the underlying TCP stream's descriptor,
and the unix stream uses its own descriptor. -/
theorem as_poll_fd_spec :
    (∀ fd : Int, RawFileDescriptor.as_poll_fd fd =
      { fd := fd, events := POLLIN ||| POLLERR, revents := 0 }) ∧
    (∀ r : PollableReceiver, r.as_poll_fd =
      { fd := r.readFd, events := POLLIN ||| POLLERR, revents := 0 }) ∧
    (∀ s : TlsStream, s.as_poll_fd =
      { fd := s.get_ref.fd, events := POLLIN ||| POLLERR, revents := 0 }) ∧
    (∀ u : UnixStream, u.as_poll_fd =
      { fd := u.fd, events := POLLIN ||| POLLERR, revents := 0 }) :=
  ⟨fun _ => rfl, fun _ => rfl, fun _ => rfl, fun _ => rfl⟩

/-- C8: Sender clone: when descriptor duplication succeeds, `clone`
returns a handle with the freshly duplicated write-end descriptor and
the same crossbeam producer binding (so its sends reach the same
receiver); `clone` has no error result, and on duplication failure it
panics with the `.expect` message rather than returning anything. -/
theorem clone_spec (s : PollableSender) :
    (∀ fd, s.clone (Except.ok fd) =
      CloneResult.ok { sender := s.sender, writeFd := fd }) ∧
    s.clone (Except.error ()) = CloneResult.panicked cloneFailMsg :=
  ⟨fun _ => rfl, rfl⟩

theorem updateRevents_fd_events (f : Nat → Nat) (i : Nat) (l : List pollfd) :
    (updateRevents f i l).map (fun r => (r.fd, r.events)) =
      l.map (fun r => (r.fd, r.events)) := by
  induction l generalizing i with
  | nil => rfl
  | cons r rs ih => simp [updateRevents, ih]

theorem updateRevents_revents (f : Nat → Nat) (i : Nat) (l : List pollfd) :
    (updateRevents f i l).map pollfd.revents = (List.range' i l.length).map f := by
  induction l generalizing i with
  | nil => rfl
  | cons r rs ih => simp [updateRevents, List.range'_succ, ih]

/-- C9: `poll_for_read` invokes the syscall with infinite timeout `-1`
and discards its return code entirely: its result is identical for any
return-code oracle (no error surfaces, no panic), and its only effect
on the record array is the syscall's in-place `revents` update — every
record keeps its descriptor and interest mask, and the `revents` fields
become exactly the kernel's report at timeout `-1`. -/
theorem poll_for_read_spec (revUpdate : Int → Nat → Nat) (ret ret2 : Int → Int)
    (pfd : List pollfd) :
    poll_for_read revUpdate ret pfd = poll_for_read revUpdate ret2 pfd ∧
    (poll_for_read revUpdate ret pfd).map (fun r => (r.fd, r.events)) =
      pfd.map (fun r => (r.fd, r.events)) ∧
    (poll_for_read revUpdate ret pfd).map pollfd.revents =
      (List.range' 0 pfd.length).map (revUpdate (-1)) :=
  ⟨rfl, updateRevents_fd_events (revUpdate (-1)) 0 pfd,
    updateRevents_revents (revUpdate (-1)) 0 pfd⟩
